import Mathlib

/-!
Verification of the postcard scheduling and delivery subsystem of
badang-post-office (FastAPI backend under be/app).

The development shallowly embeds the Python source:

* be/app/services/scheduler_service.py   (SchedulerService)
* be/app/services/postcard_service.py    (PostcardService)
* be/app/routes/postcards.py             (HTTP cancel/send handlers)

The database is modelled as a list of postcard rows, the APScheduler job
store as an association list from postcard id to fire time (an Int UTC
timestamp), and the external collaborators (translator, stylizer, image
renderer, mailer) as Except valued oracles supplied to each run.  Log
statements are not modelled except where a claim mentions them (the
overdue log of the restore pass).  File contents are not tracked, only
the path strings stored in the rows.
-/

namespace Badang

/-- Postcard lifecycle status strings used by the backend.  The value
`cancelled` is written by the HTTP delete handler in routes/postcards.py
even though it does not appear in the section 4.1 table. -/
inductive Status
  | writing
  | pending
  | processing
  | sent
  | failed
  | cancelled
  deriving DecidableEq

/-- One row of the postcards table (be/app/database/models.py).  JSON
dict fields are association lists; nullable columns are Options.  The
field user_photo_paths only ever feeds Python truthiness tests, so the
null dict and the empty dict are both modelled as the empty list.  The
services also reference a jeju_photo_paths attribute on this model;
models.py defines no such column, so reading it raises AttributeError,
which the pipeline models below reflect. -/
structure Postcard where
  id : String
  user_id : String
  template_id : String
  original_text_contents : Option (List (String × String))
  text_contents : Option (List (String × String))
  user_photo_paths : List (String × String)
  postcard_image_path : Option String
  recipient_email : Option String
  recipient_name : Option String
  sender_name : Option String
  status : Status
  scheduled_at : Option Int
  sent_at : Option Int
  error_message : Option String
  created_at : Int
  updated_at : Int
  deriving DecidableEq

/-- Python truthiness of an optional string column: None and the empty
string are both falsy. -/
def truthyStr : Option String → Bool
  | none => false
  | some s => !(s == "")

/-- Python truthiness of a nullable JSON dict column: None and the empty
dict are both falsy. -/
def truthyTexts : Option (List (String × String)) → Bool
  | none => false
  | some l => !l.isEmpty

/-- SELECT ... WHERE Postcard.id == pid, scalar_one_or_none. -/
def getPostcard (store : List Postcard) (pid : String) : Option Postcard :=
  store.find? (fun p => p.id == pid)

/-- SELECT ... WHERE Postcard.id == pid AND Postcard.user_id == uid. -/
def getPostcardOwned (store : List Postcard) (pid uid : String) : Option Postcard :=
  store.find? (fun p => p.id == pid && p.user_id == uid)

/-- UPDATE postcards SET ... WHERE id == pid: applies f to every row
whose id matches. -/
def updatePostcard (store : List Postcard) (pid : String) (f : Postcard → Postcard) :
    List Postcard :=
  match store with
  | [] => []
  | p :: rest => (if p.id == pid then f p else p) :: updatePostcard rest pid f

/-! ## Scheduler job store

APScheduler holds at most one job per id; add_job with
replace_existing=True is an upsert, reschedule_job moves the trigger of
an existing job and raises JobLookupError when the id is unknown
(scheduler_service.py). -/

/-- In-memory job set of the AsyncIOScheduler: postcard id paired with
the UTC fire time. -/
abbrev Jobs := List (String × Int)

/-- Fire time registered for an id, if a job exists. -/
def lookupJob (jobs : Jobs) (id : String) : Option Int :=
  (jobs.find? (fun j => j.1 == id)).map Prod.snd

/-- add_job with replace_existing=True: drop any job with the same id,
then append the new one. -/
def addJobReplacing (jobs : Jobs) (id : String) (t : Int) : Jobs :=
  (jobs.filter (fun j => !(j.1 == id))) ++ [(id, t)]

/-- SchedulerService.schedule_postcard: registers the timer (upsert) and
returns True; False is only produced by an internal APScheduler failure,
which the model does not generate. -/
def schedule_postcard (jobs : Jobs) (id : String) (t : Int) : Bool × Jobs :=
  (true, addJobReplacing jobs id t)

/-- SchedulerService.cancel_schedule: remove_job, returning False on
JobLookupError (unknown id). -/
def cancel_schedule (jobs : Jobs) (id : String) : Bool × Jobs :=
  if (lookupJob jobs id).isSome then
    (true, jobs.filter (fun j => !(j.1 == id)))
  else
    (false, jobs)

/-- SchedulerService.reschedule_postcard: reschedule_job moves the fire
time of an existing job; on JobLookupError it falls back to
schedule_postcard. -/
def reschedule_postcard (jobs : Jobs) (id : String) (t : Int) : Bool × Jobs :=
  if (lookupJob jobs id).isSome then
    (true, jobs.map (fun j => if j.1 == id then (id, t) else j))
  else
    schedule_postcard jobs id t

/-! ## Startup restore pass

SchedulerService._restore_scheduled_postcards: selects every postcard
with status pending and a non-null scheduled_at; for a future time it
registers a job at that time, for a past or present time it logs the
delay and registers a job firing immediately (run_date=now). -/

/-- Result of the restore pass: the job set built on the freshly started
(empty) scheduler, and the ids whose overdue delay was logged. -/
structure RestoreResult where
  jobs : Jobs
  overdueLogged : List String
  deriving DecidableEq

/-- One loop iteration of _restore_scheduled_postcards.  Rows that do
not satisfy the pending/scheduled_at query filter are untouched. -/
def restoreStep (now : Int) (acc : RestoreResult) (p : Postcard) : RestoreResult :=
  match p.status, p.scheduled_at with
  | Status.pending, some s =>
      if now < s then
        { acc with jobs := addJobReplacing acc.jobs p.id s }
      else
        { jobs := addJobReplacing acc.jobs p.id now,
          overdueLogged := acc.overdueLogged ++ [p.id] }
  | _, _ => acc

/-- SchedulerService._restore_scheduled_postcards run over the whole
store at startup, when the just-started scheduler holds no jobs. -/
def restoreScheduledPostcards (store : List Postcard) (now : Int) : RestoreResult :=
  store.foldl (restoreStep now) ⟨[], []⟩

/-! ## Templates and the translation stage -/

/-- One entry of a template's text_configs; only the id matters to the
subsystem under verification. -/
structure TextConfig where
  id : String
  deriving DecidableEq

/-- A postcard template as served by template_service; photo_configs is
reduced to the list of photo area ids. -/
structure Template where
  id : String
  text_configs : List TextConfig
  photo_configs : List String
  deriving DecidableEq

/-- Python str.lower for the ASCII config ids, written structurally on
the character list so that concrete runs reduce inside the kernel. -/
def strLower (s : String) : String := String.mk (s.data.map Char.toLower)

/-- Python str.strip (whitespace at both ends), written structurally. -/
def strTrim (s : String) : String :=
  String.mk (((s.data.dropWhile Char.isWhitespace).reverse.dropWhile
    Char.isWhitespace).reverse)

/-- PostcardService._generate_auto_field returns a generated value
exactly for these lowercased config ids; the translation stage only
tests the result against None. -/
def isAutoField (cid : String) : Bool :=
  ["date", "datetime", "time", "year", "yyyy", "month", "mm", "day", "dd"].contains
    (strLower cid)

/-- Dict lookup original_texts.get(config_id). -/
def lookupText (l : List (String × String)) (k : String) : Option String :=
  (l.find? (fun kv => kv.1 == k)).map Prod.snd

/-- Whether _translate_user_text_to_jeju reaches the call to
translate_to_jeju_async for this config: the original text is non-blank,
the id is not an auto-generated field and not the sender field. -/
def needsTranslation (originals : List (String × String)) (cfg : TextConfig) : Bool :=
  !(strTrim ((lookupText originals cfg.id).getD "") == "")
    && !isAutoField cfg.id && !(cfg.id == "sender")

/-- PostcardService._translate_user_text_to_jeju over a present (non-null)
original_text_contents dict: blank, auto-generated and sender entries are
copied unchanged, every other entry is sent to the translator and falls
back to the original text when the translator raises. -/
def translateUserTextToJeju (tr : String → Except String String)
    (template : Template) (originals : List (String × String)) :
    List (String × String) :=
  template.text_configs.map (fun cfg =>
    let original := (lookupText originals cfg.id).getD ""
    if strTrim original == "" then (cfg.id, original)
    else if isAutoField cfg.id then (cfg.id, original)
    else if cfg.id == "sender" then (cfg.id, original)
    else
      match tr original with
      | Except.ok t => (cfg.id, t)
      | Except.error _ => (cfg.id, original))

/-- The translate stage as invoked by both pipelines.  A null
original_text_contents makes original_texts.get raise AttributeError at
the first config (bubbling to the outer exception handler of the run),
except when the template has no text_configs at all, in which case the
loop body never executes. -/
def translateStage (tr : String → Except String String) (template : Template)
    (originals : Option (List (String × String))) :
    Except String (List (String × String)) :=
  match originals with
  | some l => Except.ok (translateUserTextToJeju tr template l)
  | none =>
      if template.text_configs.isEmpty then Except.ok []
      else Except.error "AttributeError: NoneType has no attribute get"

/-- Calls actually made to the translation collaborator during the
translate stage, one marker per translated config. -/
def translateCallCount (template : Template) (originals : List (String × String)) : Nat :=
  (template.text_configs.filter (needsTranslation originals)).length

/-! ## Delivery pipelines

Two distinct implementations exist in the source: the immediate-send
background task PostcardService._send_postcard_background and the
scheduler fire handler SchedulerService._send_scheduled_postcard.  Both
are modelled as total functions over the store; a Python exception
caught by a surrounding except block is represented by the branch that
block takes, and an exception that escapes the run is recorded in the
raised field of the output. -/

/-- External collaborator outcomes for one pipeline run: the
translation service and the template catalogue.  The stylize, render
and mail collaborators of the source are unreachable in every run (see
the pipeline definitions below), so no outcome is modelled for them. -/
structure Collab where
  translate : String → Except String String
  templates : List Template

/-- template_service.get_template_by_id. -/
def findTemplate (ts : List Template) (tid : String) : Option Template :=
  ts.find? (fun t => t.id == tid)

/-- Message of the ValueError the scheduler fire handler raises when the
template id resolves to nothing. -/
def msgTemplateNotFound (tid : String) : String :=
  "TemplateNotFound: " ++ tid

/-- Message of the ImportError raised when Python loads
app.services.postcard_event_service: its line 11 imports PostcardEvent
from app.database.models, and models.py defines no such class. -/
def msgImportErrorPostcardEvent : String :=
  "ImportError: cannot import name PostcardEvent from app.database.models"

/-- Message of the AttributeError raised when the scheduler fire handler
reads scheduled.jeju_photo_paths (scheduler_service.py lines 266 and
331), an attribute the Postcard model does not define. -/
def msgNoJejuColumn : String :=
  "AttributeError: Postcard object has no attribute jeju_photo_paths"

/-- Invocation of an external stage collaborator. -/
inductive Action
  | translatorCall
  | stylizerCall
  | rendererCall
  | mailerCall
  deriving DecidableEq

/-- Everything observable about one pipeline run: the resulting store,
the collaborator calls in order, every write to the status column as a
before/after pair, and the exception that escaped the run, if any (the
scheduler fire handler swallows every exception inside its try/except;
the immediate-send background task lets its entry ImportError escape
into the task runner). -/
structure RunOutput where
  store : List Postcard
  actions : List Action
  statusWrites : List (Status × Status)
  raised : Option String
  deriving DecidableEq

/-- Run that returns without touching anything and raises nothing. -/
def noopOutput (store : List Postcard) : RunOutput :=
  ⟨store, [], [], none⟩

/-- UPDATE ... SET status=failed, error_message=e (immediate path
failure handler, which does not touch updated_at). -/
def setFailed (e : String) (q : Postcard) : Postcard :=
  { q with status := Status.failed, error_message := some e }

/-- UPDATE ... SET status=failed, error_message=e, updated_at=now
(scheduler path failure handler). -/
def setFailedAt (e : String) (now : Int) (q : Postcard) : Postcard :=
  { q with status := Status.failed, error_message := some e, updated_at := now }

/-- UPDATE ... SET status=sent, sent_at=now (immediate path success). -/
def setSent (now : Int) (q : Postcard) : Postcard :=
  { q with status := Status.sent, sent_at := some now }

/-- Translator calls made by the translate stage: none when the null
dict aborts the loop at its first iteration, one per translated config
otherwise. -/
def translateActions (template : Template)
    (originals : Option (List (String × String))) : List Action :=
  match originals with
  | some l => List.replicate (translateCallCount template l) Action.translatorCall
  | none => []

/-- PostcardService._send_postcard_background: the immediate-send
pipeline.  Its function-local import of PostcardEventService
(postcard_service.py line 836) sits before the try block and raises
ImportError, because app.services.postcard_event_service imports the
missing PostcardEvent model at its line 11.  The task therefore raises
on entry: no row is read or written, no status changes, and no
collaborator is invoked; every later stage of the function, including
the resend shortcut at lines 852-888 and the temp-row choreography
around create_postcard, is unreachable. -/
def sendPostcardBackground (store : List Postcard) (pid uid : String) :
    RunOutput :=
  ⟨store, [], [], some msgImportErrorPostcardEvent⟩

/-- SchedulerService._send_scheduled_postcard: the fire handler run by
the scheduler.  It re-checks status, resolves the template, and runs
the translation stage; the translated texts are committed, after which
the handler reads scheduled.jeju_photo_paths (line 331, and already at
line 266 when user_photo_paths is truthy), an attribute the Postcard
model does not define.  The AttributeError propagates to the outer
except block, which records status failed with the message and swallows
the exception, so every run that passes the translation stage ends
failed either way, and the stylize, render and mail stages,
create_postcard and the sent update are unreachable. -/
def sendScheduledPostcard (c : Collab) (now : Int) (store : List Postcard)
    (pid : String) : RunOutput :=
  match getPostcard store pid with
  | none => noopOutput store
  | some scheduled =>
    if !(scheduled.status == Status.pending) then noopOutput store
    else
      match findTemplate c.templates scheduled.template_id with
      | none =>
          { store := updatePostcard store pid
              (setFailedAt (msgTemplateNotFound scheduled.template_id) now)
            actions := []
            statusWrites := [(Status.pending, Status.failed)]
            raised := none }
      | some template =>
        let trActs := translateActions template scheduled.original_text_contents
        match translateStage c.translate template scheduled.original_text_contents with
        | Except.error e =>
            { store := updatePostcard store pid (setFailedAt e now)
              actions := trActs
              statusWrites := [(Status.pending, Status.failed)]
              raised := none }
        | Except.ok ts =>
          let store1 := updatePostcard store pid
            (fun q => { q with text_contents := some ts })
          { store := updatePostcard store1 pid (setFailedAt msgNoJejuColumn now)
            actions := trActs
            statusWrites := [(Status.pending, Status.failed)]
            raised := none }

/-! ## Service layer entry points and HTTP handlers

PostcardService.send_postcard / cancel_postcard, and the inline handlers
of routes/postcards.py (POST /v1/postcards/id/send and
DELETE /v1/postcards/id). -/

/-- Errors raised by the entry points, as distinguishable signals.
awaitTypeError stands for the TypeError produced when the HTTP handlers
in routes/postcards.py await the synchronous scheduler methods (lines
487 and 617); their except blocks surface it as HTTP 500. -/
inductive SendError
  | notFound
  | invalidStatus (s : Status)
  | noRecipient
  | noImage
  | quotaExceeded (count : Nat)
  | noText
  | backgroundRequired
  | schedulerRegistration
  | mailFailed (e : String)
  | awaitTypeError
  deriving DecidableEq

/-- Store plus scheduler job set, the state an entry point touches. -/
structure SendState where
  store : List Postcard
  jobs : Jobs
  deriving DecidableEq

/-- Outcome of one entry point call: the state it leaves behind, the
error it raised (if any), each write to the status column, and whether
the immediate background pipeline was started. -/
structure CallResult where
  state : SendState
  error : Option SendError
  statusWrites : List (Status × Status)
  backgroundStarted : Bool
  deriving DecidableEq

/-- Call that raises err before mutating anything. -/
def abortCall (st : SendState) (err : SendError) : CallResult :=
  ⟨st, some err, [], false⟩

/-- PostcardService._check_send_limit: number of this user's postcards
whose status is sent, pending or failed. -/
def countActiveSends (store : List Postcard) (uid : String) : Nat :=
  (store.filter (fun p =>
    p.user_id == uid
      && (p.status == Status.sent || p.status == Status.pending
          || p.status == Status.failed))).length

/-- UPDATE ... SET status=processing, error_message=NULL, updated_at=now
(immediate branch of PostcardService.send_postcard). -/
def setProcessing (now : Int) (q : Postcard) : Postcard :=
  { q with status := Status.processing, error_message := none, updated_at := now }

/-- UPDATE ... SET status=pending, updated_at=now (scheduled branch). -/
def setPending (now : Int) (q : Postcard) : Postcard :=
  { q with status := Status.pending, updated_at := now }

/-- UPDATE ... SET status=writing (rollback after a scheduler
registration failure). -/
def setWritingRollback (q : Postcard) : Postcard :=
  { q with status := Status.writing }

/-- PostcardService.send_postcard.  limit is the value 2 passed at the
call site, schedOk the success of scheduler.add_job, hasBg whether a
BackgroundTasks object was supplied. -/
def serviceSendPostcard (st : SendState) (pid uid : String) (now : Int)
    (limit : Nat) (schedOk : Bool) (hasBg : Bool) : CallResult :=
  match getPostcardOwned st.store pid uid with
  | none => abortCall st SendError.notFound
  | some p =>
    if !(p.status == Status.writing || p.status == Status.pending
          || p.status == Status.failed) then
      abortCall st (SendError.invalidStatus p.status)
    else if !(truthyStr p.recipient_email) then
      abortCall st SendError.noRecipient
    else if !(p.status == Status.failed)
        && limit ≤ countActiveSends st.store uid then
      abortCall st (SendError.quotaExceeded (countActiveSends st.store uid))
    else if !(truthyTexts p.original_text_contents) then
      abortCall st SendError.noText
    else
      match p.scheduled_at with
      | none =>
          let store1 := updatePostcard st.store pid (setProcessing now)
          if hasBg then
            ⟨⟨store1, st.jobs⟩, none, [(p.status, Status.processing)], true⟩
          else
            -- the processing write is committed before the ValueError
            ⟨⟨store1, st.jobs⟩, some SendError.backgroundRequired,
              [(p.status, Status.processing)], false⟩
      | some s =>
          let store1 := updatePostcard st.store pid (setPending now)
          if schedOk then
            ⟨⟨store1, addJobReplacing st.jobs pid s⟩, none,
              [(p.status, Status.pending)], false⟩
          else
            ⟨⟨updatePostcard store1 pid setWritingRollback, st.jobs⟩,
              some SendError.schedulerRegistration,
              [(p.status, Status.pending), (Status.pending, Status.writing)], false⟩

/-- UPDATE ... SET status=writing, scheduled_at=NULL, updated_at=now
(PostcardService.cancel_postcard). -/
def setCancelledToWriting (now : Int) (q : Postcard) : Postcard :=
  { q with status := Status.writing, scheduled_at := none, updated_at := now }

/-- PostcardService.cancel_postcard: reverts a pending reservation to
writing, clearing scheduled_at and removing the scheduler job. -/
def serviceCancelPostcard (st : SendState) (pid uid : String) (now : Int) :
    CallResult :=
  match getPostcardOwned st.store pid uid with
  | none => abortCall st SendError.notFound
  | some p =>
    if !(p.status == Status.pending) then
      abortCall st (SendError.invalidStatus p.status)
    else
      let jobs1 :=
        if p.scheduled_at.isSome then (cancel_schedule st.jobs pid).2 else st.jobs
      ⟨⟨updatePostcard st.store pid (setCancelledToWriting now), jobs1⟩,
        none, [(Status.pending, Status.writing)], false⟩

/-- UPDATE ... SET status=cancelled, updated_at=now (HTTP delete
handler in routes/postcards.py). -/
def setCancelledTerminal (now : Int) (q : Postcard) : Postcard :=
  { q with status := Status.cancelled, updated_at := now }

/-- DELETE /v1/postcards/postcard_id handler (routes/postcards.py
cancel_postcard): accepts writing or pending.  When scheduled_at is set
it evaluates scheduler.cancel_schedule(postcard_id) — a synchronous
method, so the job removal takes effect — and then awaits the returned
bool, raising TypeError (line 487); the except block turns this into an
HTTP 500 and the status=cancelled update at line 493 is never reached.
Only a postcard without a schedule is actually written cancelled. -/
def httpCancelPostcard (st : SendState) (pid uid : String) (now : Int) :
    CallResult :=
  match getPostcardOwned st.store pid uid with
  | none => abortCall st SendError.notFound
  | some p =>
    if !(p.status == Status.writing || p.status == Status.pending) then
      abortCall st (SendError.invalidStatus p.status)
    else if p.scheduled_at.isSome then
      ⟨⟨st.store, (cancel_schedule st.jobs pid).2⟩,
        some SendError.awaitTypeError, [], false⟩
    else
      ⟨⟨updatePostcard st.store pid (setCancelledTerminal now), st.jobs⟩,
        none, [(p.status, Status.cancelled)], false⟩

/-- POST /v1/postcards/postcard_id/send handler (routes/postcards.py
send_postcard): requires a pre-generated image; the immediate branch
mails synchronously and writes sent or failed itself.  The scheduled
branch commits status=pending, then evaluates
scheduler.schedule_postcard(...) — a synchronous method, so the job
registration takes effect — and awaits the returned bool, raising
TypeError (line 617); the except block turns this into an HTTP 500, and
the rollback to writing guarded by the success check is unreachable. -/
def httpSendPostcard (st : SendState) (pid uid : String) (now : Int)
    (mail : Except String Unit) : CallResult :=
  match getPostcardOwned st.store pid uid with
  | none => abortCall st SendError.notFound
  | some p =>
    if !(p.status == Status.writing || p.status == Status.pending) then
      abortCall st (SendError.invalidStatus p.status)
    else if !p.postcard_image_path.isSome then
      abortCall st SendError.noImage
    else if !(truthyStr p.recipient_email) then
      abortCall st SendError.noRecipient
    else
      match p.scheduled_at with
      | none =>
          match mail with
          | Except.ok _ =>
              ⟨⟨updatePostcard st.store pid (setSent now), st.jobs⟩, none,
                [(p.status, Status.sent)], false⟩
          | Except.error e =>
              ⟨⟨updatePostcard st.store pid (setFailed e), st.jobs⟩,
                some (SendError.mailFailed e), [(p.status, Status.failed)], false⟩
      | some s =>
          ⟨⟨updatePostcard st.store pid (setPending now),
              addJobReplacing st.jobs pid s⟩,
            some SendError.awaitTypeError, [(p.status, Status.pending)], false⟩

/-! ## The section 4.1 transition table -/

/-- The legal transition edges of the specification, section 4.1, as
from/to pairs. -/
def specEdge : Status → Status → Bool
  | Status.writing, Status.processing => true
  | Status.writing, Status.pending => true
  | Status.pending, Status.writing => true
  | Status.pending, Status.processing => true
  | Status.processing, Status.sent => true
  | Status.processing, Status.failed => true
  | Status.failed, Status.processing => true
  | _, _ => false

/-- Additional status transitions the code actually performs: terminal
cancellation by the HTTP delete handler (reachable only for a postcard
without a schedule, since a set scheduled_at makes that handler raise
before writing), the direct writing/pending to sent or failed jumps of
the immediate branch of the HTTP send handler and the pending to failed
jump of the scheduler fire handler (none passes through processing),
and re-scheduling a failed postcard. -/
def observedExtraEdge : Status → Status → Bool
  | Status.writing, Status.cancelled => true
  | Status.pending, Status.cancelled => true
  | Status.writing, Status.sent => true
  | Status.pending, Status.sent => true
  | Status.writing, Status.failed => true
  | Status.pending, Status.failed => true
  | Status.failed, Status.pending => true
  | _, _ => false

/-! ## Sample data used by concrete witnesses and counterexamples -/

/-- Template with a single translatable text area, no photo areas. -/
def sampleTemplate : Template := ⟨"t1", [⟨"main_text"⟩], []⟩

/-- A pending scheduled postcard owned by u1 with text content and no
rendered image. -/
def samplePending : Postcard :=
  { id := "p1"
    user_id := "u1"
    template_id := "t1"
    original_text_contents := some [("main_text", "hello")]
    text_contents := none
    user_photo_paths := []
    postcard_image_path := none
    recipient_email := some "to@example.com"
    recipient_name := none
    sender_name := none
    status := Status.pending
    scheduled_at := some 10
    sent_at := none
    error_message := none
    created_at := 0
    updated_at := 0 }

/-- Collaborators whose translation succeeds on every call. -/
def collabOk : Collab :=
  { translate := fun s => Except.ok ("jeju:" ++ s)
    templates := [sampleTemplate] }

/-- Collaborators whose translation raises on every call. -/
def collabTranslateFails : Collab :=
  { translate := fun s => Except.error ("no translation: " ++ s)
    templates := [sampleTemplate] }

/-- A postcard in writing status without a schedule, used alongside
samplePending. -/
def sampleWriting : Postcard :=
  { samplePending with id := "p2", status := Status.writing, scheduled_at := none }

/-- Whether an entry point outcome is the quota rejection. -/
def isQuotaError : Option SendError → Bool
  | some (SendError.quotaExceeded _) => true
  | _ => false

/-- A sent postcard of the same user, used to fill the quota. -/
def sampleSent (n : String) : Postcard :=
  { samplePending with id := n, status := Status.sent, scheduled_at := none }

/-- The failed variant of samplePending with no schedule. -/
def sampleFailed : Postcard :=
  { samplePending with status := Status.failed, scheduled_at := none }

/-- The pending sample postcard with one uploaded photo, so the stylize
stage actually runs. -/
def samplePendingPhoto : Postcard :=
  { samplePending with user_photo_paths := [("ph1", "static/uploads/a.jpg")] }

/-- The pending sample postcard whose rendered image already exists. -/
def samplePendingImg : Postcard :=
  { samplePending with postcard_image_path := some "static/generated/old.png" }

end Badang

namespace Badang

/-! ## Helper lemmas on the store and job set -/

theorem beq_true_of_eq {α : Type} [BEq α] [LawfulBEq α] {a b : α} (h : a = b) :
    (a == b) = true := by
  subst h; exact beq_self_eq_true a

theorem beq_false_of_ne {α : Type} [BEq α] [LawfulBEq α] {a b : α} (h : a ≠ b) :
    (a == b) = false :=
  beq_eq_false_iff_ne.mpr h

theorem find?_filter_not_key (jobs : Jobs) (id : String) :
    (jobs.filter (fun j => !(j.1 == id))).find? (fun j => j.1 == id) = none := by
  induction jobs with
  | nil => rfl
  | cons a rest ih =>
      by_cases h : a.1 = id
      · simp [List.filter_cons, beq_true_of_eq h, ih]
      · simp [List.filter_cons, List.find?_cons, beq_false_of_ne h, ih]

theorem lookupJob_addJobReplacing_self (jobs : Jobs) (id : String) (t : Int) :
    lookupJob (addJobReplacing jobs id t) id = some t := by
  simp [lookupJob, addJobReplacing, List.find?_append, find?_filter_not_key,
    List.find?]

theorem lookupJob_addJobReplacing_ne (jobs : Jobs) (id id' : String) (t : Int)
    (h : id' ≠ id) :
    lookupJob (addJobReplacing jobs id' t) id = lookupJob jobs id := by
  unfold lookupJob addJobReplacing
  rw [List.find?_append]
  have htail : List.find? (fun j => j.1 == id) [(id', t)] = none := by
    simp [List.find?, beq_false_of_ne h]
  rw [htail]
  have hfilter : ∀ l : Jobs,
      (l.filter (fun j => !(j.1 == id'))).find? (fun j => j.1 == id)
        = l.find? (fun j => j.1 == id) := by
    intro l
    induction l with
    | nil => rfl
    | cons a rest ih =>
        by_cases ha : a.1 = id'
        · have hne : a.1 ≠ id := by rw [ha]; exact h
          simp [List.filter_cons, beq_true_of_eq ha, List.find?_cons,
            beq_false_of_ne hne, ih]
        · by_cases hb : a.1 = id
          · simp [List.filter_cons, beq_false_of_ne ha, List.find?_cons,
              beq_true_of_eq hb]
          · simp [List.filter_cons, beq_false_of_ne ha, List.find?_cons,
              beq_false_of_ne hb, ih]
  rw [hfilter]
  cases hfind : List.find? (fun j => j.1 == id) jobs <;> simp

theorem getPostcardOwned_updatePostcard (store : List Postcard) (pid uid : String)
    (f : Postcard → Postcard) (hid : ∀ p, (f p).id = p.id)
    (huid : ∀ p, (f p).user_id = p.user_id) :
    getPostcardOwned (updatePostcard store pid f) pid uid
      = (getPostcardOwned store pid uid).map f := by
  induction store with
  | nil => rfl
  | cons a rest ih =>
      simp only [updatePostcard, getPostcardOwned] at ih
      by_cases ha : a.id = pid
      · by_cases hu : a.user_id = uid
        · simp [updatePostcard, getPostcardOwned, List.find?_cons, ha, hu, hid, huid]
        · simp [updatePostcard, getPostcardOwned, List.find?_cons, ha, hu, hid,
            huid, ih]
      · simp [updatePostcard, getPostcardOwned, List.find?_cons, ha, ih]

/-! ## Restore pass lemmas -/

theorem restoreStep_of_not_scheduled (now : Int) (acc : RestoreResult)
    (a : Postcard) (h : ¬(a.status = Status.pending ∧ a.scheduled_at.isSome)) :
    restoreStep now acc a = acc := by
  unfold restoreStep
  cases h1 : a.status <;> cases h2 : a.scheduled_at <;> try rfl
  exact absurd ⟨h1, by rw [h2]; rfl⟩ h

theorem restore_foldl_preserve (now : Int) :
    ∀ (store : List Postcard) (acc : RestoreResult) (pid : String),
      (∀ q ∈ store, q.id = pid →
          ¬(q.status = Status.pending ∧ q.scheduled_at.isSome)) →
      lookupJob (store.foldl (restoreStep now) acc).jobs pid
        = lookupJob acc.jobs pid := by
  intro store
  induction store with
  | nil => intro acc pid _; rfl
  | cons a rest ih =>
      intro acc pid h
      rw [List.foldl_cons, ih _ pid (fun q hq => h q (List.mem_cons_of_mem a hq))]
      by_cases hq : a.status = Status.pending ∧ a.scheduled_at.isSome
      · obtain ⟨h1, h2⟩ := hq
        obtain ⟨s, hs⟩ := Option.isSome_iff_exists.mp h2
        have hane : a.id ≠ pid :=
          fun he => h a (List.mem_cons_self a rest) he ⟨h1, h2⟩
        simp only [restoreStep, h1, hs]
        split <;> exact lookupJob_addJobReplacing_ne acc.jobs pid a.id _ hane
      · rw [restoreStep_of_not_scheduled now acc a hq]

theorem restore_foldl_lookup (now : Int) :
    ∀ (store : List Postcard) (acc : RestoreResult) (p : Postcard) (s : Int),
      p ∈ store → p.status = Status.pending → p.scheduled_at = some s →
      (store.map Postcard.id).Nodup →
      lookupJob (store.foldl (restoreStep now) acc).jobs p.id
        = some (if now < s then s else now) := by
  intro store
  induction store with
  | nil => intro acc p s hp _ _ _; exact absurd hp (List.not_mem_nil p)
  | cons a rest ih =>
      intro acc p s hp h1 h2 hnodup
      rw [List.foldl_cons]
      have hmap : (a.id :: rest.map Postcard.id).Nodup := by
        simpa only [List.map_cons] using hnodup
      rcases List.mem_cons.mp hp with rfl | hmem
      · have hnotin : p.id ∉ rest.map Postcard.id := (List.nodup_cons.mp hmap).1
        have hrest : ∀ q ∈ rest, q.id = p.id →
            ¬(q.status = Status.pending ∧ q.scheduled_at.isSome) := by
          intro q hq he _
          exact hnotin (he ▸ List.mem_map_of_mem Postcard.id hq)
        rw [restore_foldl_preserve now rest _ p.id hrest]
        simp only [restoreStep, h1, h2]
        split <;> simp [lookupJob_addJobReplacing_self]
      · exact ih (restoreStep now acc a) p s hmem h1 h2
          (by simpa only [List.map_cons] using (List.nodup_cons.mp hmap).2)

theorem restore_log_mono (now : Int) :
    ∀ (store : List Postcard) (acc : RestoreResult) (x : String),
      x ∈ acc.overdueLogged →
      x ∈ (store.foldl (restoreStep now) acc).overdueLogged := by
  intro store
  induction store with
  | nil => intro acc x h; exact h
  | cons a rest ih =>
      intro acc x h
      rw [List.foldl_cons]
      apply ih
      by_cases hq : a.status = Status.pending ∧ a.scheduled_at.isSome
      · obtain ⟨h1, h2⟩ := hq
        obtain ⟨s, hs⟩ := Option.isSome_iff_exists.mp h2
        simp only [restoreStep, h1, hs]
        split
        · exact h
        · exact List.mem_append_left _ h
      · rw [restoreStep_of_not_scheduled now acc a hq]; exact h

theorem restore_foldl_log (now : Int) :
    ∀ (store : List Postcard) (acc : RestoreResult) (p : Postcard) (s : Int),
      p ∈ store → p.status = Status.pending → p.scheduled_at = some s →
      ¬ now < s →
      p.id ∈ (store.foldl (restoreStep now) acc).overdueLogged := by
  intro store
  induction store with
  | nil => intro acc p s hp _ _ _; exact absurd hp (List.not_mem_nil p)
  | cons a rest ih =>
      intro acc p s hp h1 h2 hlate
      rw [List.foldl_cons]
      rcases List.mem_cons.mp hp with rfl | hmem
      · apply restore_log_mono
        simp only [restoreStep, h1, h2]
        rw [if_neg hlate]
        exact List.mem_append_right _ (List.mem_singleton_self p.id)
      · exact ih (restoreStep now acc a) p s hmem h1 h2 hlate

theorem addJobReplacing_keys_nodup (jobs : Jobs) (id : String) (t : Int)
    (h : (jobs.map Prod.fst).Nodup) :
    ((addJobReplacing jobs id t).map Prod.fst).Nodup := by
  unfold addJobReplacing
  rw [List.map_append]
  refine List.Nodup.append ?_ (by simp) ?_
  · exact ((List.filter_sublist jobs).map Prod.fst).nodup h
  · intro x hx1 hx2
    simp only [List.map_cons, List.map_nil, List.mem_singleton] at hx2
    subst hx2
    obtain ⟨j, hj, hj2⟩ := List.mem_map.mp hx1
    have := List.of_mem_filter hj
    rw [hj2] at this
    simp at this

theorem restore_keys_nodup (now : Int) :
    ∀ (store : List Postcard) (acc : RestoreResult),
      (acc.jobs.map Prod.fst).Nodup →
      (((store.foldl (restoreStep now) acc).jobs).map Prod.fst).Nodup := by
  intro store
  induction store with
  | nil => intro acc h; exact h
  | cons a rest ih =>
      intro acc h
      rw [List.foldl_cons]
      apply ih
      by_cases hq : a.status = Status.pending ∧ a.scheduled_at.isSome
      · obtain ⟨h1, h2⟩ := hq
        obtain ⟨s, hs⟩ := Option.isSome_iff_exists.mp h2
        simp only [restoreStep, h1, hs]
        split <;> exact addJobReplacing_keys_nodup acc.jobs a.id _ h
      · rw [restoreStep_of_not_scheduled now acc a hq]; exact h

/-! ## Claim theorems -/

/-- C3: over a store with distinct ids, the restore pass registers
exactly one timer for every pending postcard with a non-null
scheduled_at (the job set keys are duplicate-free and the lookup is
defined), firing at scheduled_at when that is still in the future and
immediately (at now) otherwise, in which case the delay is logged; every
postcard in another status or without a scheduled_at gets no timer. -/
theorem C3_restore_registers_every_pending (store : List Postcard) (now : Int)
    (hnodup : (store.map Postcard.id).Nodup) :
    (∀ p ∈ store, ∀ s : Int, p.status = Status.pending → p.scheduled_at = some s →
        lookupJob (restoreScheduledPostcards store now).jobs p.id
          = some (if now < s then s else now)
        ∧ (¬ now < s →
            p.id ∈ (restoreScheduledPostcards store now).overdueLogged))
    ∧ (∀ p ∈ store, ¬(p.status = Status.pending ∧ p.scheduled_at.isSome) →
        lookupJob (restoreScheduledPostcards store now).jobs p.id = none)
    ∧ ((restoreScheduledPostcards store now).jobs.map Prod.fst).Nodup := by
  refine ⟨?_, ?_, ?_⟩
  · intro p hp s h1 h2
    exact ⟨restore_foldl_lookup now store ⟨[], []⟩ p s hp h1 h2 hnodup,
      fun hlate => restore_foldl_log now store ⟨[], []⟩ p s hp h1 h2 hlate⟩
  · intro p hp hnq
    have hid : ∀ q ∈ store, q.id = p.id →
        ¬(q.status = Status.pending ∧ q.scheduled_at.isSome) := by
      intro q hq he
      have hqp : q = p := List.inj_on_of_nodup_map hnodup hq hp he
      rw [hqp]
      exact hnq
    exact restore_foldl_preserve now store ⟨[], []⟩ p.id hid
  · exact restore_keys_nodup now store ⟨[], []⟩ (by simp)

/-- Witness for C3: one overdue pending postcard (scheduled for 10,
restored at 20) and one writing postcard. -/
theorem C3_witness :
    ((([samplePending, sampleWriting].map Postcard.id).Nodup)
      ∧ samplePending.status = Status.pending
      ∧ samplePending.scheduled_at = some 10)
    ∧ lookupJob
        (restoreScheduledPostcards [samplePending, sampleWriting] 20).jobs "p1"
      = some 20
    ∧ "p1" ∈ (restoreScheduledPostcards [samplePending, sampleWriting]
        20).overdueLogged
    ∧ lookupJob
        (restoreScheduledPostcards [samplePending, sampleWriting] 20).jobs "p2"
      = none := by
  have h := C3_restore_registers_every_pending [samplePending, sampleWriting] 20
    (by decide)
  have h1 := h.1 samplePending (List.mem_cons_self _ _) 10 rfl rfl
  have h2 := h.2.1 sampleWriting
    (List.mem_cons_of_mem _ (List.mem_cons_self _ _)) (by decide)
  refine ⟨⟨by decide, rfl, rfl⟩, ?_, ?_, h2⟩
  · simpa using h1.1
  · exact h1.2 (by decide)

/-- C8: for every id and fire time, reschedule_postcard on an id with no
registered job returns the same value and produces the same job set as
schedule_postcard, and it reports success rather than a not-found
failure. -/
theorem C8_reschedule_without_job_eq_schedule (jobs : Jobs) (id : String) (t : Int)
    (h : lookupJob jobs id = none) :
    reschedule_postcard jobs id t = schedule_postcard jobs id t
    ∧ (reschedule_postcard jobs id t).1 = true := by
  have hs : (lookupJob jobs id).isSome = false := by rw [h]; rfl
  refine ⟨?_, ?_⟩
  · simp [reschedule_postcard, hs]
  · simp [reschedule_postcard, hs, schedule_postcard]

/-- Witness for C8 at the empty job set. -/
theorem C8_witness :
    lookupJob [] "p1" = none
    ∧ (reschedule_postcard [] "p1" 5 = schedule_postcard [] "p1" 5
        ∧ (reschedule_postcard [] "p1" 5).1 = true) :=
  ⟨rfl, C8_reschedule_without_job_eq_schedule [] "p1" 5 rfl⟩

/-- C6: when the fire handler finds no postcard for the id, or finds it
in a status other than pending, it returns the no-op outcome: the store
is unchanged, no collaborator is invoked, no status write is produced,
and no error escapes (the model of the handler is total because its
whole body sits inside a try/except). -/
theorem C6_fire_aborts_silently (c : Collab) (now : Int)
    (store : List Postcard) (pid : String) :
    (getPostcard store pid = none →
        sendScheduledPostcard c now store pid = noopOutput store)
    ∧ (∀ p, getPostcard store pid = some p → p.status ≠ Status.pending →
        sendScheduledPostcard c now store pid = noopOutput store) := by
  refine ⟨?_, ?_⟩
  · intro h
    simp [sendScheduledPostcard, h]
  · intro p hp hs
    have hb : (p.status == Status.pending) = false := beq_false_of_ne hs
    simp [sendScheduledPostcard, hp, hb]

/-- Witness for C6 on a store whose only postcard is already sent. -/
theorem C6_witness :
    getPostcard [{ samplePending with status := Status.sent }] "p1"
      = some { samplePending with status := Status.sent }
    ∧ ({ samplePending with status := Status.sent } : Postcard).status
        ≠ Status.pending
    ∧ sendScheduledPostcard collabOk 0
        [{ samplePending with status := Status.sent }] "p1"
      = noopOutput [{ samplePending with status := Status.sent }] :=
  ⟨by decide, by decide,
    (C6_fire_aborts_silently collabOk 0
        [{ samplePending with status := Status.sent }] "p1").2
      { samplePending with status := Status.sent } (by decide) (by decide)⟩

/-- C9: cancelling a pending postcard through
PostcardService.cancel_postcard raises nothing and rewrites exactly the
status (to writing), scheduled_at (to null) and updated_at columns; the
record equality below pins every other field to its previous value. -/
theorem C9_cancel_pending_frame (st : SendState) (pid uid : String) (now : Int)
    (p : Postcard) (h : getPostcardOwned st.store pid uid = some p)
    (hs : p.status = Status.pending) :
    (serviceCancelPostcard st pid uid now).error = none
    ∧ getPostcardOwned (serviceCancelPostcard st pid uid now).state.store pid uid
        = some { p with
                 status := Status.writing
                 scheduled_at := none
                 updated_at := now } := by
  have hb : (p.status == Status.pending) = true := beq_true_of_eq hs
  refine ⟨?_, ?_⟩
  · simp [serviceCancelPostcard, h, hb]
  · simp only [serviceCancelPostcard, h, hb, Bool.not_true, Bool.false_eq_true,
      if_false]
    rw [getPostcardOwned_updatePostcard st.store pid uid
      (setCancelledToWriting now) (fun _ => rfl) (fun _ => rfl), h]
    rfl

/-- Witness for C9 on the sample pending postcard. -/
theorem C9_witness :
    getPostcardOwned [samplePending] "p1" "u1" = some samplePending
    ∧ samplePending.status = Status.pending
    ∧ ((serviceCancelPostcard ⟨[samplePending], [("p1", 10)]⟩ "p1" "u1" 7).error
          = none
        ∧ getPostcardOwned
            (serviceCancelPostcard ⟨[samplePending], [("p1", 10)]⟩ "p1" "u1"
              7).state.store "p1" "u1"
          = some { samplePending with
                   status := Status.writing
                   scheduled_at := none
                   updated_at := 7 }) :=
  ⟨by decide, by decide,
    C9_cancel_pending_frame ⟨[samplePending], [("p1", 10)]⟩ "p1" "u1" 7
      samplePending (by decide) (by decide)⟩

/-- C5 counterexample: the user u1 sits at the limit (two postcards in
sent/pending/failed), yet sending their postcard s1 whose status is sent
(which is not failed) raises the invalid-status error, not the quota
error, so the claim as stated fails for statuses outside writing and
pending. -/
theorem C5_counterexample :
    2 ≤ countActiveSends [sampleSent "s1", sampleSent "s2"] "u1"
    ∧ (serviceSendPostcard ⟨[sampleSent "s1", sampleSent "s2"], []⟩ "s1" "u1" 0 2
        true true).error = some (SendError.invalidStatus Status.sent)
    ∧ isQuotaError (serviceSendPostcard ⟨[sampleSent "s1", sampleSent "s2"], []⟩
        "s1" "u1" 0 2 true true).error = false := by
  decide

/-- C5 amended: for a user at or above the limit, sending an own
postcard in status writing or pending with a recipient email set fails
with the distinct quota error and leaves store and jobs untouched, while
sending an own postcard in status failed skips the quota check and is
never rejected for quota. -/
theorem C5_quota_gate (st : SendState) (pid uid : String) (now : Int)
    (limit : Nat) (schedOk hasBg : Bool) (p : Postcard)
    (h : getPostcardOwned st.store pid uid = some p) :
    ((p.status = Status.writing ∨ p.status = Status.pending) →
      truthyStr p.recipient_email = true →
      limit ≤ countActiveSends st.store uid →
      (serviceSendPostcard st pid uid now limit schedOk hasBg).error
          = some (SendError.quotaExceeded (countActiveSends st.store uid))
        ∧ (serviceSendPostcard st pid uid now limit schedOk hasBg).state = st)
    ∧ (p.status = Status.failed →
      isQuotaError (serviceSendPostcard st pid uid now limit schedOk hasBg).error
        = false) := by
  constructor
  · intro hs hr hq
    have hqd : decide (limit ≤ countActiveSends st.store uid) = true :=
      decide_eq_true hq
    rcases hs with hs | hs <;>
      simp [serviceSendPostcard, h, hs, hr, hqd, abortCall]
  · intro hs
    simp only [serviceSendPostcard, h, hs]
    repeat' split
    all_goals simp_all [abortCall, isQuotaError]

/-- Witness for C5: a pending postcard of a user at the limit is
rejected for quota with no state change, and a failed postcard of a user
above the limit is not rejected for quota. -/
theorem C5_witness :
    (getPostcardOwned [samplePending, sampleSent "s2"] "p1" "u1"
        = some samplePending
      ∧ 2 ≤ countActiveSends [samplePending, sampleSent "s2"] "u1"
      ∧ ((serviceSendPostcard ⟨[samplePending, sampleSent "s2"], []⟩ "p1" "u1" 0 2
            true true).error
          = some (SendError.quotaExceeded
              (countActiveSends [samplePending, sampleSent "s2"] "u1"))
        ∧ (serviceSendPostcard ⟨[samplePending, sampleSent "s2"], []⟩ "p1" "u1" 0
            2 true true).state = ⟨[samplePending, sampleSent "s2"], []⟩))
    ∧ (getPostcardOwned [sampleFailed, sampleSent "s2", sampleSent "s3"] "p1"
          "u1" = some sampleFailed
      ∧ isQuotaError (serviceSendPostcard
          ⟨[sampleFailed, sampleSent "s2", sampleSent "s3"], []⟩ "p1" "u1" 0 2
          true true).error = false) := by
  constructor
  · exact ⟨by decide, by decide,
      (C5_quota_gate ⟨[samplePending, sampleSent "s2"], []⟩ "p1" "u1" 0 2 true
          true samplePending (by decide)).1
        (Or.inr rfl) (by decide) (by decide)⟩
  · exact ⟨by decide,
      (C5_quota_gate ⟨[sampleFailed, sampleSent "s2", sampleSent "s3"], []⟩ "p1"
          "u1" 0 2 true true sampleFailed (by decide)).2 rfl⟩

/-- C7 (code bug): the claimed recovery — translator and stylizer
failures falling back and the run continuing to the later stages and
not failing because of them — cannot happen in the code as written.
The translation fallback itself works (the original text is stored as
the translation), but the scheduler fire handler then raises
AttributeError on the missing jeju_photo_paths attribute and ends the
run failed without ever invoking a stylize, render or mail
collaborator; the immediate pipeline raises ImportError on entry and
performs nothing at all. -/
theorem C7_code_bug_eval :
    (getPostcard (sendScheduledPostcard collabTranslateFails 5
        [samplePendingPhoto] "p1").store "p1").map Postcard.text_contents
      = some (some [("main_text", "hello")])
    ∧ (getPostcard (sendScheduledPostcard collabTranslateFails 5
        [samplePendingPhoto] "p1").store "p1").map Postcard.status
      = some Status.failed
    ∧ Action.rendererCall
        ∉ (sendScheduledPostcard collabTranslateFails 5 [samplePendingPhoto]
          "p1").actions
    ∧ Action.mailerCall
        ∉ (sendScheduledPostcard collabTranslateFails 5 [samplePendingPhoto]
          "p1").actions
    ∧ (sendPostcardBackground [samplePendingPhoto] "p1" "u1").raised
      = some msgImportErrorPostcardEvent
    ∧ (sendPostcardBackground [samplePendingPhoto] "p1" "u1").store
      = [samplePendingPhoto] := by
  decide

/-- C2 (code bug): the resend shortcut exists in the source
(_send_postcard_background mails and returns when postcard_image_path
is populated, postcard_service.py lines 852-888), but no run ever
reaches it: the function-local import of PostcardEventService at line
836 precedes the try block and raises ImportError, so even on a
postcard with a populated image the immediate pipeline makes no mail
call, writes no status and leaves the store unchanged; the
scheduler-fired path never consults postcard_image_path and fails on
the missing jeju_photo_paths attribute. -/
theorem C2_code_bug_eval :
    samplePendingImg.postcard_image_path = some "static/generated/old.png"
    ∧ (sendPostcardBackground [samplePendingImg] "p1" "u1").raised
      = some msgImportErrorPostcardEvent
    ∧ (sendPostcardBackground [samplePendingImg] "p1" "u1").store
      = [samplePendingImg]
    ∧ (sendPostcardBackground [samplePendingImg] "p1" "u1").actions = []
    ∧ (sendPostcardBackground [samplePendingImg] "p1" "u1").statusWrites = []
    ∧ (getPostcard (sendScheduledPostcard collabOk 5 [samplePendingImg]
        "p1").store "p1").map Postcard.status = some Status.failed := by
  decide

/-- C4 (code bug): no run can reach the render stage, so the
render-failure behaviour the claim describes never executes.  With
every collaborator healthy, the scheduler fire handler still ends the
postcard failed, with the AttributeError message of the missing
jeju_photo_paths attribute as error_message, and never invokes a
renderer or mailer; the immediate pipeline raises ImportError on entry
before any stage, and since PostcardEventService can never be imported,
no failed event can ever be published. -/
theorem C4_code_bug_eval :
    (getPostcard (sendScheduledPostcard collabOk 5 [samplePending]
        "p1").store "p1").map Postcard.status = some Status.failed
    ∧ (getPostcard (sendScheduledPostcard collabOk 5 [samplePending]
        "p1").store "p1").map Postcard.error_message
      = some (some msgNoJejuColumn)
    ∧ Action.rendererCall
        ∉ (sendScheduledPostcard collabOk 5 [samplePending] "p1").actions
    ∧ Action.mailerCall
        ∉ (sendScheduledPostcard collabOk 5 [samplePending] "p1").actions
    ∧ (sendPostcardBackground [samplePending] "p1" "u1").raised
      = some msgImportErrorPostcardEvent
    ∧ (sendPostcardBackground [samplePending] "p1" "u1").actions = [] := by
  decide

/-- C10 (code bug): create_postcard — and with it the temporary-row
choreography the claim describes — is unreachable on both paths: the
scheduler fire handler fails on the missing jeju_photo_paths attribute
before its step 4 and leaves the set of row ids unchanged, and the
immediate pipeline raises ImportError on entry, leaving the store
untouched, so no run ever inserts or deletes a temporary row. -/
theorem C10_code_bug_eval :
    (sendScheduledPostcard collabOk 5 [samplePending] "p1").store.map
        Postcard.id = ["p1"]
    ∧ (getPostcard (sendScheduledPostcard collabOk 5 [samplePending]
        "p1").store "p1").map Postcard.status = some Status.failed
    ∧ (sendPostcardBackground [samplePending] "p1" "u1").store
      = [samplePending]
    ∧ (sendPostcardBackground [samplePending] "p1" "u1").raised
      = some msgImportErrorPostcardEvent := by
  decide

/-- C1 counterexample: the HTTP delete handler applied to a writing
postcard without a schedule writes the status transition writing to
cancelled, which is not an edge of the section 4.1 table. -/
theorem C1_counterexample :
    (httpCancelPostcard ⟨[sampleWriting], []⟩ "p2" "u1" 0).statusWrites
      = [(Status.writing, Status.cancelled)]
    ∧ specEdge Status.writing Status.cancelled = false := by
  decide

/-- C1 amended: every write to the status column performed by the
modelled operations (service send and cancel, HTTP cancel and send
handlers, the immediate-send background task, the scheduler fire
handler; the restore pass writes no status) that changes the value
follows either an edge of the section 4.1 table or one of the
additional edges the code actually performs: writing/pending to
cancelled (HTTP delete handler, only without a schedule), writing and
pending to sent or failed (the immediate branch of the HTTP send
handler, and pending to failed also by the scheduler fire handler;
none passes through processing), and failed to pending (re-scheduling
a failed postcard). -/
theorem C1_status_writes_amended :
    (∀ (st : SendState) (pid uid : String) (now : Int) (limit : Nat)
        (schedOk hasBg : Bool) (w : Status × Status),
        w ∈ (serviceSendPostcard st pid uid now limit schedOk
            hasBg).statusWrites →
        w.1 ≠ w.2 → (specEdge w.1 w.2 || observedExtraEdge w.1 w.2) = true)
    ∧ (∀ (st : SendState) (pid uid : String) (now : Int) (w : Status × Status),
        w ∈ (serviceCancelPostcard st pid uid now).statusWrites →
        w.1 ≠ w.2 → (specEdge w.1 w.2 || observedExtraEdge w.1 w.2) = true)
    ∧ (∀ (st : SendState) (pid uid : String) (now : Int) (w : Status × Status),
        w ∈ (httpCancelPostcard st pid uid now).statusWrites →
        w.1 ≠ w.2 → (specEdge w.1 w.2 || observedExtraEdge w.1 w.2) = true)
    ∧ (∀ (st : SendState) (pid uid : String) (now : Int)
        (mail : Except String Unit) (w : Status × Status),
        w ∈ (httpSendPostcard st pid uid now mail).statusWrites →
        w.1 ≠ w.2 → (specEdge w.1 w.2 || observedExtraEdge w.1 w.2) = true)
    ∧ (∀ (store : List Postcard) (pid uid : String) (w : Status × Status),
        w ∈ (sendPostcardBackground store pid uid).statusWrites →
        w.1 ≠ w.2 → (specEdge w.1 w.2 || observedExtraEdge w.1 w.2) = true)
    ∧ (∀ (c : Collab) (now : Int) (store : List Postcard) (pid : String)
        (w : Status × Status),
        w ∈ (sendScheduledPostcard c now store pid).statusWrites →
        w.1 ≠ w.2 → (specEdge w.1 w.2 || observedExtraEdge w.1 w.2) = true) := by
  refine ⟨?_, ?_, ?_, ?_, ?_, ?_⟩
  · intro st pid uid now limit schedOk hasBg w hw hne
    obtain ⟨w1, w2⟩ := w
    cases hgot : getPostcardOwned st.store pid uid with
    | none => simp [serviceSendPostcard, hgot, abortCall] at hw
    | some p =>
        simp only [serviceSendPostcard, hgot] at hw
        cases hst : p.status <;> rw [hst] at hw <;>
          (repeat' split at hw) <;>
          simp_all [abortCall, specEdge, observedExtraEdge] <;>
          rcases hw with ⟨rfl, rfl⟩ | ⟨rfl, rfl⟩ <;>
          simp_all [specEdge, observedExtraEdge]
  · intro st pid uid now w hw hne
    obtain ⟨w1, w2⟩ := w
    cases hgot : getPostcardOwned st.store pid uid with
    | none => simp [serviceCancelPostcard, hgot, abortCall] at hw
    | some p =>
        simp only [serviceCancelPostcard, hgot] at hw
        (repeat' split at hw) <;>
          simp_all [abortCall, specEdge, observedExtraEdge]
  · intro st pid uid now w hw hne
    obtain ⟨w1, w2⟩ := w
    cases hgot : getPostcardOwned st.store pid uid with
    | none => simp [httpCancelPostcard, hgot, abortCall] at hw
    | some p =>
        simp only [httpCancelPostcard, hgot] at hw
        cases hst : p.status <;> rw [hst] at hw <;>
          (repeat' split at hw) <;>
          simp_all [abortCall, specEdge, observedExtraEdge]
  · intro st pid uid now mail w hw hne
    obtain ⟨w1, w2⟩ := w
    cases hgot : getPostcardOwned st.store pid uid with
    | none => simp [httpSendPostcard, hgot, abortCall] at hw
    | some p =>
        simp only [httpSendPostcard, hgot] at hw
        cases hst : p.status <;> rw [hst] at hw <;>
          (repeat' split at hw) <;>
          simp_all [abortCall, specEdge, observedExtraEdge]
  · intro store pid uid w hw hne
    simp [sendPostcardBackground] at hw
  · intro c now store pid w hw hne
    obtain ⟨w1, w2⟩ := w
    unfold sendScheduledPostcard at hw
    (repeat' split at hw) <;>
      simp_all [noopOutput, specEdge, observedExtraEdge]

/-- Witness for C1 at the writing-to-cancelled write of the HTTP delete
handler on an unscheduled postcard, which lies in the amended edge
set. -/
theorem C1_witness :
    (Status.writing, Status.cancelled)
      ∈ (httpCancelPostcard ⟨[sampleWriting], []⟩ "p2" "u1" 0).statusWrites
    ∧ (specEdge Status.writing Status.cancelled
        || observedExtraEdge Status.writing Status.cancelled) = true := by
  refine ⟨by decide, ?_⟩
  exact C1_status_writes_amended.2.2.1 ⟨[sampleWriting], []⟩ "p2" "u1" 0
    (Status.writing, Status.cancelled) (by decide) (by decide)

end Badang
